import Mathlib

/-!
Verification of the moon-visibility calculator in
src/src/components/MoonVisibility.tsx.

Shallow embedding conventions: JavaScript numbers are modelled as exact
rationals (ℚ), millisecond timestamps (Date.getTime values) as integers
(ℤ).  Math.PI is the IEEE-754 double closest to π, as an exact rational.
The SunCalc ephemeris library is external to the repository; its outputs
for the query instant are a parameter (the Ephemeris structure below),
with getMoonTimes for the day i days ahead of the query day abstracted as
the functions riseAt and setAt on the day offset i (offset 0 is the query
day itself, matching the getMoonTimes call at line 255).
-/

namespace MoonVis

/-- The IEEE-754 double value of Math.PI, as an exact rational. -/
def piJS : ℚ := 884279719003555 / 281474976710656

/-- JavaScript Math.round: floor of x + 1/2 (ties are rounded up). -/
def jsRound (q : ℚ) : ℤ := ⌊q + 1/2⌋

/-- Truncation toward zero, the rounding JavaScript uses for the
remainder operator. -/
def jsTrunc (q : ℚ) : ℤ := if 0 ≤ q then ⌊q⌋ else -⌊-q⌋

/-- The JavaScript remainder operator on numbers: a - b * trunc(a / b). -/
def jsMod (a b : ℚ) : ℚ := a - b * jsTrunc (a / b)

/-- The MoonData record built by calculateMoonData (lines 61-69 and
298-306). -/
structure MoonData where
  isVisible : Bool
  altitude : ℚ
  azimuth : ℚ
  phase : ℚ
  illumination : ℚ
  rise : Option ℤ
  set : Option ℤ
deriving DecidableEq

/-- The SunCalc outputs that one calculateMoonData call consumes:
getMoonPosition and getMoonIllumination at the query instant, and
getMoonTimes for the query day (offset 0) and each of the seven
following days (offsets 1..7). -/
structure Ephemeris where
  altitudeRad : ℚ
  azimuthRad : ℚ
  phase : ℚ
  fraction : ℚ
  riseAt : ℕ → Option ℤ
  setAt : ℕ → Option ℤ

/-- The body of the forward-search loop (lines 266-270 and 279-283):
a candidate day contributes its event time only when that time is
strictly after now. -/
def checkDay (now : ℤ) (r : Option ℤ) : Option ℤ :=
  match r with
  | some t => if now < t then some t else none
  | none => none

/-- The for-loop over day offsets 1..7 with break on the first hit
(lines 263-271 and 276-284). -/
def searchDays (now : ℤ) (f : ℕ → Option ℤ) : Option ℤ :=
  [1, 2, 3, 4, 5, 6, 7].findSome? (fun i => checkDay now (f i))

/-- Lines 258-272 (and identically 259, 274-285 for the set event):
start from the query-day event; when it is absent or strictly in the
past, run the forward search; when the search finds nothing the loop
leaves the original value in place, so the absent or stale query-day
value is returned. -/
def resolveNext (now : ℤ) (f : ℕ → Option ℤ) : Option ℤ :=
  match f 0 with
  | none => searchDays now f
  | some r =>
    if r < now then
      match searchDays now f with
      | some t => some t
      | none => some r
    else some r

/-- calculateMoonData (lines 246-307), with the query instant t and the
ephemeris outputs e passed explicitly.  The thrown Error with message
Invalid coordinates is modelled as an Except.error. -/
def calculateMoonData (lat lng : ℚ) (t : ℤ) (e : Ephemeris) :
    Except String MoonData :=
  if lat < -90 ∨ lat > 90 ∨ lng < -180 ∨ lng > 180 then
    Except.error "Invalid coordinates"
  else
    let nextRise := resolveNext t e.riseAt
    let nextSet := resolveNext t e.setAt
    let altitudeDegrees := e.altitudeRad * (180 / piJS)
    let azimuthDegrees := e.azimuthRad * (180 / piJS)
    let normalizedAzimuth := jsMod (azimuthDegrees + 180) 360
    Except.ok
      { isVisible := decide (altitudeDegrees > 0)
        altitude := altitudeDegrees
        azimuth := normalizedAzimuth
        phase := e.phase
        illumination := e.fraction
        rise := nextRise
        set := nextSet }

/-- getMoonPhaseDescription (lines 89-98). -/
def getMoonPhaseDescription (phase : ℚ) : String :=
  if phase < 3/100 ∨ phase > 97/100 then "New Moon"
  else if phase < 22/100 then "Waxing Crescent"
  else if phase < 28/100 then "First Quarter"
  else if phase < 47/100 then "Waxing Gibbous"
  else if phase < 53/100 then "Full Moon"
  else if phase < 72/100 then "Waning Gibbous"
  else if phase < 78/100 then "Last Quarter"
  else "Waning Crescent"

/-- The 16 compass point labels (line 110). -/
def directions : List String :=
  ["N", "NNE", "NE", "ENE", "E", "ESE", "SE", "SSE",
   "S", "SSW", "SW", "WSW", "W", "WNW", "NW", "NNW"]

/-- getAzimuthDirection (lines 109-113).  The JavaScript % operator on
the rounded quotient truncates toward zero, and an out-of-bounds array
read yields undefined, modelled as none. -/
def getAzimuthDirection (azimuth : ℚ) : Option String :=
  let index := (jsRound (azimuth / (45/2))).tmod 16
  if index < 0 then none else directions.get? index.toNat

/-- getMoonAge (lines 160-163): Math.round(phase * 29.53 * 10) / 10. -/
def getMoonAge (phase : ℚ) : ℚ :=
  (jsRound (phase * (2953/100) * 10) : ℚ) / 10

/-- getTimeRemaining (lines 233-244).  Both times are millisecond
timestamps; the two Math.floor divisions act on nonnegative numbers in
the branch that reaches them, where integer division is exact floor
division. -/
def getTimeRemaining (targetDate : Option ℤ) (now : ℤ) :
    Option (ℤ × ℤ) :=
  match targetDate with
  | none => none
  | some target =>
    let diffMs := target - now
    if diffMs < 0 then none
    else some (diffMs / 3600000, (diffMs % 3600000) / 60000)

/-- The three state cells of the component that updateMoonData writes
(lines 78-81). -/
structure ComponentState where
  moonData : Option MoonData
  error : Option String
  loading : Bool

/-- What the consumer sees: the four top-level render branches of the
component (lines 459-485): the loading spinner, the error card, null
when no data exists yet, or the observation UI. -/
inductive Displayed where
  | loadingView
  | failed (msg : String)
  | ready (d : MoonData)
  | blank

/-- The render dispatch order (lines 459-485): loading first, then the
error card, then the observation; the error branch carries no
observation. -/
def render (s : ComponentState) : Displayed :=
  if s.loading then Displayed.loadingView
  else
    match s.error with
    | some e => Displayed.failed e
    | none =>
      match s.moonData with
      | some d => Displayed.ready d
      | none => Displayed.blank

/-- updateMoonData (lines 378-394) for one computation attempt whose
outcome is passed in: on success the observation is replaced and the
error cleared; on failure the error is set (the moonData cell keeps its
old value, which the render order above never shows while an error is
set); loading is cleared in the finally block either way. -/
def updateMoonData (s : ComponentState) (result : Except String MoonData) :
    ComponentState :=
  match result with
  | Except.ok d => { moonData := some d, error := none, loading := false }
  | Except.error e => { moonData := s.moonData, error := some e, loading := false }

/-- An ephemeris response with every field zero or absent, used to
instantiate universally quantified theorems at a concrete input. -/
def trivialEph : Ephemeris :=
  { altitudeRad := 0
    azimuthRad := 0
    phase := 0
    fraction := 0
    riseAt := fun _ => none
    setAt := fun _ => none }

/-- The mocked London scenario response: altitudeRad 0.1, azimuthRad 0
(south), no rise or set events. -/
def londonEph : Ephemeris :=
  { altitudeRad := 1/10
    azimuthRad := 0
    phase := 0
    fraction := 0
    riseAt := fun _ => none
    setAt := fun _ => none }

/-- An ephemeris whose query-day rise is at 99 (strictly before the
query time 100) and that reports no rise on any of the seven following
days. -/
def staleEph : Ephemeris :=
  { altitudeRad := 0
    azimuthRad := 0
    phase := 0
    fraction := 0
    riseAt := fun i => if i = 0 then some 99 else none
    setAt := fun _ => none }

/-- An ephemeris whose query-day rise is exactly at the query time 100,
while every following day has a rise at 200 (strictly in the future). -/
def equalRiseEph : Ephemeris :=
  { altitudeRad := 0
    azimuthRad := 0
    phase := 0
    fraction := 0
    riseAt := fun i => if i = 0 then some 100 else some 200
    setAt := fun _ => none }

/-! ## Helper lemmas -/

lemma piJS_pos : 0 < piJS := by rw [piJS]; norm_num

lemma valid_guard {lat lng : ℚ} (h1 : -90 ≤ lat) (h2 : lat ≤ 90)
    (h3 : -180 ≤ lng) (h4 : lng ≤ 180) :
    ¬(lat < -90 ∨ lat > 90 ∨ lng < -180 ∨ lng > 180) := by
  push_neg
  exact ⟨h1, h2, h3, h4⟩

lemma calculateMoonData_ok {lat lng : ℚ} (t : ℤ) (e : Ephemeris)
    (h1 : -90 ≤ lat) (h2 : lat ≤ 90) (h3 : -180 ≤ lng) (h4 : lng ≤ 180) :
    calculateMoonData lat lng t e = Except.ok
      { isVisible := decide (e.altitudeRad * (180 / piJS) > 0)
        altitude := e.altitudeRad * (180 / piJS)
        azimuth := jsMod (e.azimuthRad * (180 / piJS) + 180) 360
        phase := e.phase
        illumination := e.fraction
        rise := resolveNext t e.riseAt
        set := resolveNext t e.setAt } := by
  rw [calculateMoonData, if_neg (valid_guard h1 h2 h3 h4)]

lemma searchDays_eq_none (now : ℤ) (f : ℕ → Option ℤ)
    (h : ∀ i, 1 ≤ i → i ≤ 7 → ∀ u, f i = some u → u ≤ now) :
    searchDays now f = none := by
  apply List.findSome?_eq_none_iff.mpr
  intro x hx
  have hx17 : 1 ≤ x ∧ x ≤ 7 := by
    simp only [List.mem_cons, List.not_mem_nil, or_false] at hx
    rcases hx with rfl | rfl | rfl | rfl | rfl | rfl | rfl <;> omega
  cases hr : f x with
  | none => simp [checkDay, hr]
  | some u =>
    have hu := h x hx17.1 hx17.2 u hr
    simp [checkDay, hr, if_neg (not_lt.mpr hu)]

lemma resolveNext_exhausted (now : ℤ) (f : ℕ → Option ℤ)
    (h : ∀ i, 1 ≤ i → i ≤ 7 → ∀ u, f i = some u → u ≤ now) :
    resolveNext now f = f 0 := by
  cases h0 : f 0 with
  | none => simp [resolveNext, h0, searchDays_eq_none now f h]
  | some r =>
    by_cases hr : r < now <;>
      simp [resolveNext, h0, hr, searchDays_eq_none now f h]

lemma resolveNext_today (now r : ℤ) (f : ℕ → Option ℤ)
    (h0 : f 0 = some r) (hge : now ≤ r) :
    resolveNext now f = some r := by
  simp [resolveNext, h0, if_neg (not_lt.mpr hge)]

lemma jsMod_eq_self (a : ℚ) (h0 : 0 < a) (h1 : a < 360) : jsMod a 360 = a := by
  have hq : (0:ℚ) ≤ a / 360 := by positivity
  have hq1 : a / 360 < 1 := by rw [div_lt_one (by norm_num)]; linarith
  have ht : jsTrunc (a / 360) = 0 := by
    rw [jsTrunc, if_pos hq, Int.floor_eq_zero_iff]
    exact ⟨hq, hq1⟩
  rw [jsMod, ht]
  push_cast
  ring

lemma jsMod_360 : jsMod 360 360 = 0 := by
  have ht : jsTrunc (360 / 360 : ℚ) = 1 := by
    rw [jsTrunc, if_pos (by norm_num)]
    exact Int.floor_eq_iff.mpr (by norm_num)
  rw [jsMod, ht]
  norm_num

lemma jsMod_Ico (a : ℚ) (h0 : 0 < a) (h1 : a ≤ 360) :
    0 ≤ jsMod a 360 ∧ jsMod a 360 < 360 := by
  rcases lt_or_eq_of_le h1 with h | h
  · rw [jsMod_eq_self a h0 h]
    exact ⟨le_of_lt h0, h⟩
  · rw [h, jsMod_360]
    norm_num

lemma jsRound_close (q : ℚ) : |(jsRound q : ℚ) - q| ≤ 1/2 := by
  rw [jsRound, abs_le]
  constructor
  · have h := Int.sub_one_lt_floor (q + 1/2)
    linarith
  · have h := Int.floor_le (q + 1/2)
    linarith

/-! ## Claim theorems -/

/-- Claim C5: calculateMoonData rejects any coordinate with latitude
outside [-90, 90] or longitude outside [-180, 180] with the
Invalid coordinates error, independently of (hence before) the ephemeris
outputs, and the bounds are inclusive: (91, 0) and (0, -181) fail while
(90, 180) succeeds.  The ephemeris argument e is universally quantified
and absent from every error conclusion, which captures that validation
happens before any ephemeris call. -/
theorem coordinate_validation (lat lng : ℚ) (t : ℤ) (e : Ephemeris) :
    ((lat < -90 ∨ lat > 90 ∨ lng < -180 ∨ lng > 180) →
      calculateMoonData lat lng t e = Except.error "Invalid coordinates") ∧
    (calculateMoonData 91 0 t e = Except.error "Invalid coordinates") ∧
    (calculateMoonData 0 (-181) t e = Except.error "Invalid coordinates") ∧
    (∃ m, calculateMoonData 90 180 t e = Except.ok m) := by
  refine ⟨fun h => by rw [calculateMoonData, if_pos h], ?_, ?_, ?_⟩
  · rw [calculateMoonData, if_pos (by norm_num)]
  · rw [calculateMoonData, if_pos (by norm_num)]
  · exact ⟨_, calculateMoonData_ok t e (by norm_num) (by norm_num)
      (by norm_num) (by norm_num)⟩

/-- Witness for C5 at latitude 91, longitude 0. -/
theorem coordinate_validation_witness :
    ((91:ℚ) < -90 ∨ (91:ℚ) > 90 ∨ (0:ℚ) < -180 ∨ (0:ℚ) > 180) ∧
    calculateMoonData 91 0 0 trivialEph = Except.error "Invalid coordinates" :=
  ⟨by norm_num, (coordinate_validation 91 0 0 trivialEph).1 (by norm_num)⟩

/-- Claim C6 counterexample: the claim says every target with
target ≤ now yields none, but at target = now (difference exactly 0 ms)
the code checks diffMs < 0 and returns hours 0, minutes 0 instead. -/
theorem timeRemaining_eq_now_counterexample :
    getTimeRemaining (some 0) 0 = some (0, 0) ∧
    getTimeRemaining (some 0) 0 ≠ none := by
  constructor <;> simp [getTimeRemaining]

/-- Claim C6 amended: getTimeRemaining returns none for an absent target
and for any target strictly before now; for a target at or after now it
returns the floor-divided whole hours and remaining minutes (so a target
exactly at now, or 30 seconds ahead, yields hours 0, minutes 0). -/
theorem timeRemaining_amended (tgt now : ℤ) :
    (getTimeRemaining none now = none) ∧
    (tgt < now → getTimeRemaining (some tgt) now = none) ∧
    (now ≤ tgt → ∃ h m, getTimeRemaining (some tgt) now = some (h, m) ∧
      0 ≤ h ∧ 0 ≤ m ∧ m < 60 ∧
      h * 3600000 + m * 60000 ≤ tgt - now ∧
      tgt - now < h * 3600000 + (m + 1) * 60000) ∧
    (getTimeRemaining (some 30000) 0 = some (0, 0)) := by
  refine ⟨rfl, ?_, ?_, ?_⟩
  · intro h
    simp only [getTimeRemaining]
    rw [if_pos (by omega)]
  · intro h
    refine ⟨(tgt - now) / 3600000, ((tgt - now) % 3600000) / 60000, ?_, ?_, ?_, ?_, ?_, ?_⟩
    · simp only [getTimeRemaining]
      rw [if_neg (by omega)]
    all_goals omega
  · simp [getTimeRemaining]

/-- Witness for C6: a target at 0 with now = 5 is strictly past and
yields none, and a target 30 seconds (30000 ms) after now = 0 yields
hours 0, minutes 0. -/
theorem timeRemaining_amended_witness :
    ((0:ℤ) < 5 ∧ getTimeRemaining (some 0) 5 = none) ∧
    getTimeRemaining (some 30000) 0 = some (0, 0) :=
  ⟨⟨by norm_num, (timeRemaining_amended 0 5).2.1 (by norm_num)⟩,
    (timeRemaining_amended 30000 0).2.2.2⟩

/-- Claim C7 counterexample: the claim says every boundary value belongs
to the band above it, so phase 0.97 would have to map to New Moon (the
wrapped band above 0.97); the code tests phase > 0.97 strictly, so 0.97
itself still maps to Waning Crescent. -/
theorem phase_boundary_counterexample :
    getMoonPhaseDescription (97/100) = "Waning Crescent" ∧
    getMoonPhaseDescription (97/100) ≠ "New Moon" := by
  have h : getMoonPhaseDescription (97/100) = "Waning Crescent" := by
    rw [getMoonPhaseDescription, if_neg (by norm_num), if_neg (by norm_num),
      if_neg (by norm_num), if_neg (by norm_num), if_neg (by norm_num),
      if_neg (by norm_num), if_neg (by norm_num)]
  refine ⟨h, ?_⟩
  rw [h]
  decide

/-- Claim C7 amended: for every phase in [0, 1) the label is exactly one
of the eight, and the bands are delimited at 0.03, 0.22, 0.28, 0.47,
0.53, 0.72, 0.78, 0.97 wrapping at 0/1.  Every interior boundary value
(0.03 through 0.78) belongs to the band above it (in particular 0.03
maps to Waxing Crescent, not New Moon), but the last boundary 0.97
belongs to the band below it: New Moon requires phase strictly above
0.97, so 0.97 itself is still Waning Crescent. -/
theorem phaseLabel_bands (p : ℚ) (hp0 : 0 ≤ p) (hp1 : p < 1) :
    (getMoonPhaseDescription p ∈
      ["New Moon", "Waxing Crescent", "First Quarter", "Waxing Gibbous",
       "Full Moon", "Waning Gibbous", "Last Quarter", "Waning Crescent"]) ∧
    (p < 3/100 → getMoonPhaseDescription p = "New Moon") ∧
    (3/100 ≤ p → p < 22/100 → getMoonPhaseDescription p = "Waxing Crescent") ∧
    (22/100 ≤ p → p < 28/100 → getMoonPhaseDescription p = "First Quarter") ∧
    (28/100 ≤ p → p < 47/100 → getMoonPhaseDescription p = "Waxing Gibbous") ∧
    (47/100 ≤ p → p < 53/100 → getMoonPhaseDescription p = "Full Moon") ∧
    (53/100 ≤ p → p < 72/100 → getMoonPhaseDescription p = "Waning Gibbous") ∧
    (72/100 ≤ p → p < 78/100 → getMoonPhaseDescription p = "Last Quarter") ∧
    (78/100 ≤ p → p ≤ 97/100 → getMoonPhaseDescription p = "Waning Crescent") ∧
    (97/100 < p → getMoonPhaseDescription p = "New Moon") := by
  refine ⟨?_, ?_, ?_, ?_, ?_, ?_, ?_, ?_, ?_, ?_⟩
  · rw [getMoonPhaseDescription]
    split_ifs <;> simp
  · intro h
    rw [getMoonPhaseDescription, if_pos (Or.inl h)]
  · intro ha hb
    rw [getMoonPhaseDescription,
      if_neg (by push_neg; exact ⟨ha, by linarith⟩), if_pos hb]
  · intro ha hb
    rw [getMoonPhaseDescription,
      if_neg (by push_neg; exact ⟨by linarith, by linarith⟩),
      if_neg (not_lt.mpr ha), if_pos hb]
  · intro ha hb
    rw [getMoonPhaseDescription,
      if_neg (by push_neg; exact ⟨by linarith, by linarith⟩),
      if_neg (by linarith), if_neg (not_lt.mpr ha), if_pos hb]
  · intro ha hb
    rw [getMoonPhaseDescription,
      if_neg (by push_neg; exact ⟨by linarith, by linarith⟩),
      if_neg (by linarith), if_neg (by linarith), if_neg (not_lt.mpr ha),
      if_pos hb]
  · intro ha hb
    rw [getMoonPhaseDescription,
      if_neg (by push_neg; exact ⟨by linarith, by linarith⟩),
      if_neg (by linarith), if_neg (by linarith), if_neg (by linarith),
      if_neg (not_lt.mpr ha), if_pos hb]
  · intro ha hb
    rw [getMoonPhaseDescription,
      if_neg (by push_neg; exact ⟨by linarith, by linarith⟩),
      if_neg (by linarith), if_neg (by linarith), if_neg (by linarith),
      if_neg (by linarith), if_neg (not_lt.mpr ha), if_pos hb]
  · intro ha hb
    rw [getMoonPhaseDescription,
      if_neg (by push_neg; exact ⟨by linarith, hb⟩),
      if_neg (by linarith), if_neg (by linarith), if_neg (by linarith),
      if_neg (by linarith), if_neg (by linarith), if_neg (not_lt.mpr ha)]
  · intro h
    rw [getMoonPhaseDescription, if_pos (Or.inr h)]

/-- Witness for C7 at the boundary phase 0.03, which the amended claim
sends to Waxing Crescent. -/
theorem phaseLabel_bands_witness :
    (0:ℚ) ≤ 3/100 ∧ (3/100:ℚ) < 1 ∧ (3/100:ℚ) ≤ 3/100 ∧ (3/100:ℚ) < 22/100 ∧
    getMoonPhaseDescription (3/100) = "Waxing Crescent" :=
  ⟨by norm_num, by norm_num, le_refl _, by norm_num,
    (phaseLabel_bands (3/100) (by norm_num) (by norm_num)).2.2.1
      (le_refl _) (by norm_num)⟩

/-- Claim C8: getMoonAge is phase times the 29.53-day cycle rounded to
one decimal place: the result always lies on the one-decimal grid and
within 1/20 (half of the last decimal place) of phase * 29.53, and
concretely getMoonAge 0 = 0 and getMoonAge 0.5 = 14.8 is within 0.1 of
14.8. -/
theorem moonAge_rounding :
    getMoonAge 0 = 0 ∧
    |getMoonAge (1/2) - 148/10| ≤ 1/10 ∧
    ∀ p : ℚ, (∃ n : ℤ, getMoonAge p = (n : ℚ) / 10) ∧
      |getMoonAge p - p * (2953/100)| ≤ 1/20 := by
  refine ⟨?_, ?_, ?_⟩
  · have h : jsRound ((0 : ℚ) * (2953/100) * 10) = 0 := by
      rw [jsRound]
      exact Int.floor_eq_iff.mpr (by norm_num)
    rw [getMoonAge, h]
    norm_num
  · have h : jsRound ((1/2 : ℚ) * (2953/100) * 10) = 148 := by
      rw [jsRound]
      exact Int.floor_eq_iff.mpr (by norm_num)
    rw [getMoonAge, h]
    norm_num
  · intro p
    refine ⟨⟨jsRound (p * (2953/100) * 10), rfl⟩, ?_⟩
    have hd : getMoonAge p - p * (2953/100)
        = ((jsRound (p * (2953/100) * 10) : ℚ) - p * (2953/100) * 10) / 10 := by
      rw [getMoonAge]
      ring
    have hc := jsRound_close (p * (2953/100) * 10)
    rw [hd, abs_div, abs_of_pos (show (0:ℚ) < 10 by norm_num),
      div_le_iff₀ (show (0:ℚ) < 10 by norm_num)]
    linarith

/-- Claim C9: one refresh computation attempt is atomic for the
consumer: a successful attempt renders as the new observation alone, and
a failed attempt renders as the error alone (the failed branch of the
display carries no observation), whatever state the attempt started
from. -/
theorem refresh_attempt_atomic (s : ComponentState) (d : MoonData) (e : String) :
    render (updateMoonData s (Except.ok d)) = Displayed.ready d ∧
    render (updateMoonData s (Except.error e)) = Displayed.failed e :=
  ⟨rfl, rfl⟩

/-- Claim C10: for every azimuth in [0, 360) the lookup index
Math.round(azimuth / 22.5) % 16 lies in [0, 15], so the 16-element
direction array access is in bounds and getAzimuthDirection is total on
that domain; azimuths near 360 round to index 16, which wraps to 0 and
the label N. -/
theorem compass_index_in_bounds (az : ℚ) (h0 : 0 ≤ az) (h1 : az < 360) :
    (0 ≤ (jsRound (az / (45/2))).tmod 16 ∧
      (jsRound (az / (45/2))).tmod 16 ≤ 15) ∧
    (getAzimuthDirection az).isSome = true ∧
    getAzimuthDirection 359 = some "N" := by
  have hq0 : (0:ℚ) ≤ az / (45/2) := by positivity
  have hr0 : 0 ≤ jsRound (az / (45/2)) := by
    rw [jsRound]
    exact Int.floor_nonneg.mpr (by linarith)
  have hr1 : jsRound (az / (45/2)) ≤ 16 := by
    rw [jsRound]
    have hq16 : az / (45/2) < 16 := by
      rw [div_lt_iff₀ (show (0:ℚ) < 45/2 by norm_num)]
      linarith
    have hq1 : az / (45/2) + 1/2 < ((17 : ℤ) : ℚ) := by
      push_cast
      linarith
    have := Int.floor_lt.mpr hq1
    omega
  have htm : 0 ≤ (jsRound (az / (45/2))).tmod 16 ∧
      (jsRound (az / (45/2))).tmod 16 ≤ 15 := by
    set n := jsRound (az / (45/2)) with hn
    clear_value n
    interval_cases n <;> decide
  have h359 : getAzimuthDirection 359 = some "N" := by
    have hj : jsRound ((359 : ℚ) / (45/2)) = 16 := by
      rw [jsRound]
      exact Int.floor_eq_iff.mpr (by norm_num)
    simp only [getAzimuthDirection, hj]
    decide
  refine ⟨htm, ?_, h359⟩
  simp only [getAzimuthDirection]
  rw [if_neg (not_lt.mpr htm.1)]
  have hlen : ((jsRound (az / (45/2))).tmod 16).toNat < directions.length := by
    have := htm.2
    simp only [directions, List.length_cons, List.length_nil]
    omega
  rw [List.get?_eq_get hlen]
  rfl

/-- Witness for C10 at azimuth 0. -/
theorem compass_index_in_bounds_witness :
    (0:ℚ) ≤ 0 ∧ (0:ℚ) < 360 ∧ (getAzimuthDirection 0).isSome = true :=
  ⟨le_refl 0, by norm_num,
    (compass_index_in_bounds 0 (le_refl 0) (by norm_num)).2.1⟩

/-- Claim C1 counterexample: at query time 100 with a query-day rise at
99 (strictly before the query time) and no rise reported on any of the
following 7 days, no rise event strictly after the query time exists at
all, yet the returned rise field is the stale past timestamp 99 rather
than absent.  (No exception is raised, and the 99 < 100 conjunct records
that the kept timestamp is indeed in the past.) -/
theorem stale_rise_counterexample :
    (calculateMoonData 0 0 100 staleEph).map MoonData.rise
      = Except.ok (some 99) ∧
    (some (99:ℤ) ≠ (none : Option ℤ)) ∧ ((99:ℤ) < 100) := by
  refine ⟨?_, by simp, by norm_num⟩
  rw [calculateMoonData_ok 100 staleEph (by norm_num) (by norm_num)
    (by norm_num) (by norm_num)]
  have hr : resolveNext 100 staleEph.riseAt = some 99 := by decide
  simp [Except.map, hr]

/-- Claim C1 amended: when neither the query day nor any of the 7
following days yields a rise strictly after the query time, the rise
field of the returned observation equals the raw query-day rise value:
it is absent exactly when the query-day rise was absent (and no
exception is raised), but a present stale query-day timestamp is kept
rather than cleared. -/
theorem nextRise_exhausted_amended (lat lng : ℚ) (t : ℤ) (e : Ephemeris)
    (h1 : -90 ≤ lat) (h2 : lat ≤ 90) (h3 : -180 ≤ lng) (h4 : lng ≤ 180)
    (hfut : ∀ i, 1 ≤ i → i ≤ 7 → ∀ u, e.riseAt i = some u → u ≤ t) :
    ∃ m, calculateMoonData lat lng t e = Except.ok m ∧
      m.rise = e.riseAt 0 :=
  ⟨_, calculateMoonData_ok t e h1 h2 h3 h4,
    resolveNext_exhausted t e.riseAt hfut⟩

/-- Witness for C1 at the stale-rise ephemeris: days 1..7 report no
rise, so the rise field equals the raw query-day value some 99. -/
theorem nextRise_exhausted_amended_witness :
    staleEph.riseAt 1 = none ∧
    (calculateMoonData 0 0 100 staleEph).map MoonData.rise
      = Except.ok (staleEph.riseAt 0) := by
  have hfut : ∀ i, 1 ≤ i → i ≤ 7 → ∀ u, staleEph.riseAt i = some u → u ≤ 100 := by
    intro i hi _ u hu
    have hne : i ≠ 0 := by omega
    simp [staleEph, hne] at hu
  obtain ⟨m, hm, hr⟩ := nextRise_exhausted_amended 0 0 100 staleEph
    (by norm_num) (by norm_num) (by norm_num) (by norm_num) hfut
  exact ⟨rfl, by rw [hm]; simp [Except.map, hr]⟩

/-- Claim C2 counterexample: the claim says a query-day rise exactly
equal to the query time triggers the forward search (which here would
find the strictly future rise 200 on day 1); the code only searches when
the query-day rise is strictly in the past, so it returns the boundary
timestamp 100 itself, which is not strictly in the future. -/
theorem rise_equal_now_counterexample :
    equalRiseEph.riseAt 0 = some 100 ∧
    equalRiseEph.riseAt 1 = some 200 ∧
    (calculateMoonData 0 0 100 equalRiseEph).map MoonData.rise
      = Except.ok (some 100) := by
  refine ⟨rfl, rfl, ?_⟩
  rw [calculateMoonData_ok 100 equalRiseEph (by norm_num) (by norm_num)
    (by norm_num) (by norm_num)]
  have hr : resolveNext 100 equalRiseEph.riseAt = some 100 := by decide
  simp [Except.map, hr]

/-- Claim C2 amended: the query-day rise timestamp is used as the rise
field whenever it is present and not strictly before the query time; in
particular a rise exactly at the query time is returned as-is and does
not trigger the forward day-by-day search. -/
theorem todays_rise_used_when_not_past (lat lng : ℚ) (t r : ℤ)
    (e : Ephemeris)
    (h1 : -90 ≤ lat) (h2 : lat ≤ 90) (h3 : -180 ≤ lng) (h4 : lng ≤ 180)
    (hr : e.riseAt 0 = some r) (hge : t ≤ r) :
    ∃ m, calculateMoonData lat lng t e = Except.ok m ∧ m.rise = some r :=
  ⟨_, calculateMoonData_ok t e h1 h2 h3 h4,
    resolveNext_today t r e.riseAt hr hge⟩

/-- Witness for C2 at the boundary ephemeris: query-day rise exactly at
the query time 100 is returned unchanged. -/
theorem todays_rise_used_when_not_past_witness :
    equalRiseEph.riseAt 0 = some 100 ∧ (100:ℤ) ≤ 100 ∧
    (calculateMoonData 0 0 100 equalRiseEph).map MoonData.rise
      = Except.ok (some 100) := by
  obtain ⟨m, hm, hr⟩ := todays_rise_used_when_not_past 0 0 100 100
    equalRiseEph (by norm_num) (by norm_num) (by norm_num) (by norm_num)
    rfl (le_refl 100)
  exact ⟨rfl, le_refl 100, by rw [hm]; simp [Except.map, hr]⟩

/-- Claim C4: for every valid coordinate and instant the isVisible field
equals altitudeDegrees > 0 with strict inequality, so an altitude of
exactly 0 (altitudeRad 0) yields isVisible = false. -/
theorem isVisible_iff_altitude_positive (lat lng : ℚ) (t : ℤ)
    (e : Ephemeris)
    (h1 : -90 ≤ lat) (h2 : lat ≤ 90) (h3 : -180 ≤ lng) (h4 : lng ≤ 180) :
    ∃ m, calculateMoonData lat lng t e = Except.ok m ∧
      (m.isVisible = true ↔ 0 < m.altitude) ∧
      (e.altitudeRad = 0 → m.isVisible = false) := by
  refine ⟨_, calculateMoonData_ok t e h1 h2 h3 h4, ?_, ?_⟩
  · simp [decide_eq_true_eq]
  · intro hz
    simp [hz]

/-- Witness for C4 at the all-zero ephemeris: altitude 0 renders the
moon not visible. -/
theorem isVisible_iff_altitude_positive_witness :
    trivialEph.altitudeRad = 0 ∧
    (calculateMoonData 0 0 0 trivialEph).map MoonData.isVisible
      = Except.ok false := by
  obtain ⟨m, hm, _, hz⟩ := isVisible_iff_altitude_positive 0 0 0 trivialEph
    (by norm_num) (by norm_num) (by norm_num) (by norm_num)
  exact ⟨rfl, by rw [hm]; simp [Except.map, hz rfl]⟩

/-- Claim C3: for every valid coordinate and instant the azimuth field
is the south-referenced provider azimuth converted to degrees,
re-referenced to north by adding 180 and reducing with the JavaScript
remainder by 360, and it lies in [0, 360).  The range hypothesis on
azimuthRad is the SunCalc getMoonPosition contract: its azimuth is an
atan2 result in (-π, π].  The second conjunct is the end-to-end London
scenario: coordinates (51.5074, -0.1278) with mocked altitudeRad 0.1 and
azimuthRad 0 give isVisible = true and azimuth exactly 180. -/
theorem azimuth_normalized (lat lng : ℚ) (t : ℤ) (e : Ephemeris)
    (h1 : -90 ≤ lat) (h2 : lat ≤ 90) (h3 : -180 ≤ lng) (h4 : lng ≤ 180)
    (ha1 : -piJS < e.azimuthRad) (ha2 : e.azimuthRad ≤ piJS) :
    (∃ m, calculateMoonData lat lng t e = Except.ok m ∧
      m.azimuth = jsMod (e.azimuthRad * (180 / piJS) + 180) 360 ∧
      0 ≤ m.azimuth ∧ m.azimuth < 360) ∧
    (∃ m, calculateMoonData (515074/10000) (-1278/10000) t londonEph
        = Except.ok m ∧
      m.isVisible = true ∧ m.azimuth = 180) := by
  have hpi := piJS_pos
  have hc : (0:ℚ) < 180 / piJS := by positivity
  constructor
  · have hub : e.azimuthRad * (180 / piJS) ≤ 180 := by
      calc e.azimuthRad * (180 / piJS)
          ≤ piJS * (180 / piJS) := by
            exact mul_le_mul_of_nonneg_right ha2 (le_of_lt hc)
        _ = 180 := by field_simp
    have hlb : -180 < e.azimuthRad * (180 / piJS) := by
      have hm := mul_lt_mul_of_pos_right ha1 hc
      have he : -piJS * (180 / piJS) = -180 := by
        field_simp
        ring
      linarith
    have ha0 : 0 < e.azimuthRad * (180 / piJS) + 180 := by linarith
    have ha360 : e.azimuthRad * (180 / piJS) + 180 ≤ 360 := by linarith
    have hb := jsMod_Ico _ ha0 ha360
    exact ⟨_, calculateMoonData_ok t e h1 h2 h3 h4, rfl, hb.1, hb.2⟩
  · refine ⟨_, calculateMoonData_ok t londonEph (by norm_num) (by norm_num)
      (by norm_num) (by norm_num), ?_, ?_⟩
    · simp only [londonEph, decide_eq_true_eq]
      positivity
    · show jsMod (londonEph.azimuthRad * (180 / piJS) + 180) 360 = 180
      have hz : londonEph.azimuthRad * (180 / piJS) + 180 = 180 := by
        simp [londonEph]
      rw [hz, jsMod_eq_self 180 (by norm_num) (by norm_num)]

/-- Witness for C3 at the London scenario ephemeris (azimuthRad 0, which
satisfies the atan2 range hypothesis). -/
theorem azimuth_normalized_witness :
    (-piJS < londonEph.azimuthRad ∧ londonEph.azimuthRad ≤ piJS) ∧
    (calculateMoonData (515074/10000) (-1278/10000) 0 londonEph).map
      MoonData.azimuth = Except.ok 180 ∧
    (calculateMoonData (515074/10000) (-1278/10000) 0 londonEph).map
      MoonData.isVisible = Except.ok true := by
  have h := azimuth_normalized (515074/10000) (-1278/10000) 0 londonEph
    (by norm_num) (by norm_num) (by norm_num) (by norm_num)
    (by simp only [londonEph]; linarith [piJS_pos])
    (by simp only [londonEph]; linarith [piJS_pos])
  obtain ⟨m, hm, hv, haz⟩ := h.2
  refine ⟨⟨by simp only [londonEph]; linarith [piJS_pos],
    by simp only [londonEph]; linarith [piJS_pos]⟩, ?_, ?_⟩
  · rw [hm]
    simp [Except.map, haz]
  · rw [hm]
    simp [Except.map, hv]

end MoonVis
